import Mathlib

/-!
learning-cadence: the HTTP facade over a Cadence backend (`main.go`).

A shallow embedding of the handlers, the registered workflow and the registered
activity of `main.go`, followed by the properties proved about them.

Conventions of the embedding:

* A Go pointer field that the code tests against `nil` is an `Option`. A pointer
  field that the code dereferences unconditionally (`*event.EventId`,
  `*event.Timestamp`, `*exec.StartTime`, `*exec.Execution.WorkflowId`, ...) is
  carried as a plain value: the handlers are defined on records in which those
  fields are set.
* A Go `error` is the `String` that `err.Error()` returns.
* `int64` nanosecond timestamps and `time.Duration` are `Int`; `time.Time.Sub`
  saturates at the bounds of `time.Duration` as the Go standard library does.
* `x.String()` of a generated enum is modelled where the handler's control flow
  depends on the rendering; an event type is carried as its rendering.
* Every handler returns the response written and the backend calls it made, in
  order.
-/

namespace HelloCadence

/-! ## Go standard library: `time` -/

/-- A `time.Time` without monotonic reading, as nanoseconds since the Unix epoch. -/
structure Time where
  unixNano : Int
  deriving DecidableEq, Repr

/-- The largest `time.Duration`, `1<<63 - 1` nanoseconds. -/
def maxDuration : Int := 9223372036854775807

/-- The smallest `time.Duration`, `-1 << 63` nanoseconds. -/
def minDuration : Int := -9223372036854775808

/-- The Go call `time.Unix(sec, nsec)`. -/
def timeUnix (sec nsec : Int) : Time :=
  { unixNano := sec * 1000000000 + nsec }

/-- The Go method `t.Sub(u)`: the duration `t - u`, or the maximum (minimum)
duration when `t - u` exceeds what a `time.Duration` can store. -/
def Time.Sub (t u : Time) : Int :=
  let d := t.unixNano - u.unixNano
  if d > maxDuration then maxDuration
  else if d < minDuration then minDuration
  else d

/-- The Go call `time.Since(t)` for a `t` without monotonic reading, which is
`time.Now().Sub(t)`; `now` is the wall clock reading. -/
def timeSince (now : Time) (t : Time) : Int :=
  now.Sub t

/-- The Go constant `time.Second`, in nanoseconds. -/
def second : Int := 1000000000

/-- The Go constant `time.Minute`, in nanoseconds. -/
def minute : Int := 60 * second

/-- The Go constant `time.Hour`, in nanoseconds. -/
def hour : Int := 60 * minute

/-! ## Package-level configuration -/

/-- The variable `Domain`. -/
def Domain : String := "test-domain"

/-- The variable `TaskListName`. -/
def TaskListName : String := "test-worker"

/-! ## HTTP requests and responses -/

/-- The part of an `*http.Request` the handlers read. `body` is the outcome of
`json.NewDecoder(r.Body).Decode(&req)` for the start request: a decoding error,
or the `name` member of the object when it has one. -/
structure Request where
  method : String
  query : List (String × String)
  body : Except String (Option String)

/-- The Go call `r.URL.Query().Get(key)`: the first value of `key`, or the empty
string when the key is absent. -/
def queryGet (q : List (String × String)) (key : String) : String :=
  match q.find? (fun p => p.1 == key) with
  | some p => p.2
  | none => ""

/-- The constant `http.MethodGet`. -/
def MethodGet : String := "GET"

/-- The constant `http.MethodPost`. -/
def MethodPost : String := "POST"

/-- The constant `http.StatusOK`. -/
def StatusOK : Nat := 200

/-- The constant `http.StatusBadRequest`. -/
def StatusBadRequest : Nat := 400

/-- The constant `http.StatusMethodNotAllowed`. -/
def StatusMethodNotAllowed : Nat := 405

/-- The constant `http.StatusInternalServerError`. -/
def StatusInternalServerError : Nat := 500

/-! ## Backend records (`shared.*`) -/

/-- The record `shared.WorkflowType` / `shared.ActivityType`: an optional name. -/
structure NamedType where
  name : Option String
  deriving DecidableEq, Repr

/-- The record `shared.WorkflowExecution`. -/
structure WorkflowExecution where
  workflowId : String
  runId : String
  deriving DecidableEq, Repr

/-- The record `shared.WorkflowExecutionInfo`. `closeStatus` is the numeric value
of the `WorkflowExecutionCloseStatus` enum. -/
structure WorkflowExecutionInfo where
  execution : WorkflowExecution
  type : Option NamedType
  startTime : Int
  closeTime : Option Int
  closeStatus : Option Int
  historyLength : Option Int
  deriving DecidableEq, Repr

/-- The record `shared.PendingActivityInfo`; `state` is the rendering
`activity.State.String()`. -/
structure PendingActivityInfo where
  activityID : String
  activityType : Option NamedType
  state : String
  attempt : Int
  scheduledTimestamp : Option Int
  lastStartedTimestamp : Option Int
  deriving DecidableEq, Repr

/-- The record `shared.DescribeWorkflowExecutionResponse`. -/
structure DescribeWorkflowExecutionResponse where
  workflowExecutionInfo : WorkflowExecutionInfo
  pendingActivities : List PendingActivityInfo
  deriving DecidableEq, Repr

/-- The records `shared.ActivityTaskFailedEventAttributes` and
`shared.WorkflowExecutionFailedEventAttributes`, as far as the handler reads them. -/
structure FailedEventAttributes where
  reason : Option String
  deriving DecidableEq, Repr

/-- The record `shared.ActivityTaskScheduledEventAttributes`, as far as the
handler reads it. -/
structure ActivityTaskScheduledEventAttributes where
  activityType : Option NamedType
  deriving DecidableEq, Repr

/-- The record `shared.HistoryEvent`. `eventType` is the rendering
`event.EventType.String()`. An attributes record the handler only tests against
`nil` is `Option Unit`. -/
structure HistoryEvent where
  eventId : Int
  timestamp : Int
  eventType : String
  workflowExecutionStartedEventAttributes : Option Unit
  activityTaskScheduledEventAttributes : Option ActivityTaskScheduledEventAttributes
  activityTaskCompletedEventAttributes : Option Unit
  activityTaskFailedEventAttributes : Option FailedEventAttributes
  workflowExecutionFailedEventAttributes : Option FailedEventAttributes
  deriving DecidableEq, Repr

/-- Modelled from the spec: the generated method
`WorkflowExecutionCloseStatus.String()` of the Cadence client library, which is
not part of `main.go`. The six close statuses are the terminal statuses the spec
lists; any other value renders as the type name and the number. -/
def closeStatusString (v : Int) : String :=
  if v = 0 then "COMPLETED"
  else if v = 1 then "FAILED"
  else if v = 2 then "CANCELED"
  else if v = 3 then "TERMINATED"
  else if v = 4 then "CONTINUED_AS_NEW"
  else if v = 5 then "TIMED_OUT"
  else "WorkflowExecutionCloseStatus(" ++ toString v ++ ")"

/-! ## History projector (`getWorkflowHistoryHandler`) -/

/-- The local type `HistoryEvent` of `getWorkflowHistoryHandler`. -/
structure HistoryEventView where
  eventID : Int
  eventType : String
  timestamp : Time
  details : String
  deriving DecidableEq, Repr

/-- The `switch event.EventType.String()` of `getWorkflowHistoryHandler`: the
value of `historyEvent.Details` after the switch (the zero value `""` when no
branch assigns it). -/
def eventDetails (event : HistoryEvent) : String :=
  if event.eventType = "WorkflowExecutionStarted" then
    match event.workflowExecutionStartedEventAttributes with
    | some _ => "Workflow started with input"
    | none => ""
  else if event.eventType = "ActivityTaskScheduled" then
    match event.activityTaskScheduledEventAttributes with
    | some attrs =>
      match attrs.activityType with
      | some ty =>
        match ty.name with
        | some name => "Activity: " ++ name
        | none => ""
      | none => ""
    | none => ""
  else if event.eventType = "ActivityTaskStarted" then
    "Activity execution started"
  else if event.eventType = "ActivityTaskCompleted" then
    match event.activityTaskCompletedEventAttributes with
    | some _ => "Activity completed successfully"
    | none => ""
  else if event.eventType = "ActivityTaskFailed" then
    match event.activityTaskFailedEventAttributes with
    | some attrs =>
      match attrs.reason with
      | some reason => "Activity failed: " ++ reason
      | none => ""
    | none => ""
  else if event.eventType = "WorkflowExecutionCompleted" then
    "Workflow completed successfully"
  else if event.eventType = "WorkflowExecutionFailed" then
    match event.workflowExecutionFailedEventAttributes with
    | some attrs =>
      match attrs.reason with
      | some reason => "Workflow failed: " ++ reason
      | none => ""
    | none => ""
  else ""

/-- The body of the loop of `getWorkflowHistoryHandler` for one fetched event:
the `historyEvent` that is appended. -/
def historyEventOf (event : HistoryEvent) : HistoryEventView :=
  { eventID := event.eventId
    eventType := event.eventType
    timestamp := timeUnix 0 event.timestamp
    details := eventDetails event }

/-- The loop `for iter.HasNext() { event, err := iter.Next(); ... }` of
`getWorkflowHistoryHandler`. The iterator is the list of the results its
successive `Next()` calls give, `HasNext()` holding while the list is not
exhausted; `events` is the slice built so far. -/
def collectEvents : List (Except String HistoryEvent) → List HistoryEventView →
    List HistoryEventView
  | [], events => events
  | Except.error _ :: _, events => events
  | Except.ok event :: rest, events => collectEvents rest (events ++ [historyEventOf event])

/-! ## Execution views (`listWorkflowsHandler`, `getWorkflowStatusHandler`) -/

/-- The local type `WorkflowInfo` of `listWorkflowsHandler`. `executionTime` is
the `time.Duration` whose `String()` rendering the handler stores. -/
structure WorkflowInfo where
  workflowID : String
  runID : String
  workflowType : String
  startTime : Time
  closeTime : Option Time
  status : String
  executionTime : Int
  deriving DecidableEq, Repr

/-- The lines `workflowType := ""; if x.Type != nil && x.Type.Name != nil { ... }`
shared by the handlers. -/
def typeName (ty : Option NamedType) : String :=
  match ty with
  | some t =>
    match t.name with
    | some n => n
    | none => ""
  | none => ""

/-- The body of the loop over `openResp.Executions`: the entry appended for
`exec`, `now` being the clock reading of its `time.Since`. -/
def openWorkflowInfo (now : Time) (exec : WorkflowExecutionInfo) : WorkflowInfo :=
  let startTime := timeUnix 0 exec.startTime
  let executionTime := timeSince now startTime
  { workflowID := exec.execution.workflowId
    runID := exec.execution.runId
    workflowType := typeName exec.type
    startTime := startTime
    closeTime := none
    status := "RUNNING"
    executionTime := executionTime }

/-- The body of the loop over `closedResp.Executions`: the entry appended for
`exec`. -/
def closedWorkflowInfo (exec : WorkflowExecutionInfo) : WorkflowInfo :=
  let startTime := timeUnix 0 exec.startTime
  let closeTime : Option Time :=
    match exec.closeTime with
    | some c => some (timeUnix 0 c)
    | none => none
  let executionTime : Int :=
    match exec.closeTime with
    | some c => (timeUnix 0 c).Sub startTime
    | none => 0
  let status :=
    match exec.closeStatus with
    | some s => closeStatusString s
    | none => "COMPLETED"
  { workflowID := exec.execution.workflowId
    runID := exec.execution.runId
    workflowType := typeName exec.type
    startTime := startTime
    closeTime := closeTime
    status := status
    executionTime := executionTime }

/-- The loop `for _, exec := range openResp.Executions`: `clock k` is the reading
of the `k`-th call of `time.Now()` in the request, `k` the index of the next
reading and `workflows` the slice built so far. -/
def addOpenWorkflows (clock : Nat → Time) :
    Nat → List WorkflowExecutionInfo → List WorkflowInfo → List WorkflowInfo
  | _, [], workflows => workflows
  | k, exec :: rest, workflows =>
    addOpenWorkflows clock (k + 1) rest (workflows ++ [openWorkflowInfo (clock k) exec])

/-- The loop `for _, exec := range closedResp.Executions`, `workflows` being the
slice built so far. -/
def addClosedWorkflows : List WorkflowExecutionInfo → List WorkflowInfo → List WorkflowInfo
  | [], workflows => workflows
  | exec :: rest, workflows => addClosedWorkflows rest (workflows ++ [closedWorkflowInfo exec])

/-- One entry of `pendingActivities` in the status response. -/
structure PendingActivityView where
  activityId : String
  activityType : String
  state : String
  attempt : Int
  scheduledTime : Option Time
  lastStartedTime : Option Time
  deriving DecidableEq, Repr

/-- The body of the loop over `descResp.PendingActivities`. -/
def pendingActivityView (activity : PendingActivityInfo) : PendingActivityView :=
  { activityId := activity.activityID
    activityType := typeName activity.activityType
    state := activity.state
    attempt := activity.attempt
    scheduledTime := activity.scheduledTimestamp.map (timeUnix 0)
    lastStartedTime := activity.lastStartedTimestamp.map (timeUnix 0) }

/-- The `response` map of `getWorkflowStatusHandler`. `executionTime` is the
`time.Duration` whose `String()` rendering the handler stores;
`pendingActivities` is absent when the key is not set. -/
structure StatusView where
  workflowId : String
  runId : String
  workflowType : String
  startTime : Time
  closeTime : Option Time
  status : String
  executionTime : Int
  historyLength : Option Int
  pendingActivities : Option (List PendingActivityView)
  deriving DecidableEq, Repr

/-- The construction of `response` in `getWorkflowStatusHandler` from the
backend's answer; `now` is the clock reading of `time.Since`. -/
def statusView (now : Time) (descResp : DescribeWorkflowExecutionResponse) : StatusView :=
  let executionInfo := descResp.workflowExecutionInfo
  let startTime := timeUnix 0 executionInfo.startTime
  let closeTime : Option Time :=
    match executionInfo.closeTime with
    | some c => some (timeUnix 0 c)
    | none => none
  let executionTime : Int :=
    match executionInfo.closeTime with
    | some c => (timeUnix 0 c).Sub startTime
    | none => timeSince now startTime
  let status :=
    match executionInfo.closeStatus with
    | some s => closeStatusString s
    | none => "RUNNING"
  { workflowId := executionInfo.execution.workflowId
    runId := executionInfo.execution.runId
    workflowType := typeName executionInfo.type
    startTime := startTime
    closeTime := closeTime
    status := status
    executionTime := executionTime
    historyLength := executionInfo.historyLength
    pendingActivities :=
      if descResp.pendingActivities.length > 0 then
        some (descResp.pendingActivities.map pendingActivityView)
      else none }

/-! ## Workflow and activity -/

/-- The record `workflow.ActivityOptions`, as far as the workflow sets it. -/
structure ActivityOptions where
  scheduleToStartTimeout : Int
  startToCloseTimeout : Int
  heartbeatTimeout : Int
  deriving DecidableEq, Repr

/-- One `workflow.ExecuteActivity` call: the options in the context and the
argument passed to `helloWorldActivity`. -/
structure ScheduledActivity where
  options : ActivityOptions
  input : String
  deriving DecidableEq, Repr

/-- What one invocation of the workflow body does: the activity calls it
scheduled, in order, and the pair `(*string, error)` it returns. -/
structure WorkflowRun where
  scheduled : List ScheduledActivity
  result : Option String
  err : Option String
  deriving DecidableEq, Repr

/-- The function `helloWorldActivity`: the pair `(string, error)` as an `Except`. -/
def helloWorldActivity (name : String) : Except String String :=
  Except.ok ("Hello " ++ name ++ "!")

/-- The activity options `ao` that `helloWorldWorkflow` puts in its context. -/
def helloWorldActivityOptions : ActivityOptions :=
  { scheduleToStartTimeout := minute
    startToCloseTimeout := minute
    heartbeatTimeout := second * 20 }

/-- The function `helloWorldWorkflow`. `executeActivity ao name` is the outcome of
`workflow.ExecuteActivity(ctx, helloWorldActivity, name).Get(ctx, &helloworldResult)`
under the options `ao`: the error, or the value stored in `helloworldResult`. -/
def helloWorldWorkflow (executeActivity : ActivityOptions → String → Except String String)
    (name : String) : WorkflowRun :=
  let ao : ActivityOptions := helloWorldActivityOptions
  match executeActivity ao name with
  | Except.error err =>
    { scheduled := [{ options := ao, input := name }], result := none, err := some err }
  | Except.ok helloworldResult =>
    { scheduled := [{ options := ao, input := name }]
      result := some helloworldResult
      err := none }

/-! ## Backend client and handlers -/

/-- The record `client.StartWorkflowOptions`, as far as the handler sets it. -/
structure StartWorkflowOptions where
  id : String
  taskList : String
  executionStartToCloseTimeout : Int
  decisionTaskStartToCloseTimeout : Int
  deriving DecidableEq, Repr

/-- The time filter of a list request. -/
structure StartTimeFilter where
  earliestTime : Int
  latestTime : Int
  deriving DecidableEq, Repr

/-- A call the handlers make on `cadenceClient`, with its arguments. -/
inductive BackendCall where
  | startWorkflow (options : StartWorkflowOptions) (name : String)
  | listOpenWorkflow (domain : String) (pageSize : Int) (filter : StartTimeFilter)
  | listClosedWorkflow (domain : String) (pageSize : Int) (filter : StartTimeFilter)
  | describeWorkflowExecution (workflowID runID : String)
  | getWorkflowHistory (workflowID runID : String)
  deriving DecidableEq, Repr

/-- The answers of `cadenceClient`: for each operation, the error or the value it
returns. `getWorkflowHistory` gives the iterator as the list of the results of
its successive `Next()` calls. -/
structure Backend where
  startWorkflow : StartWorkflowOptions → String → Except String WorkflowExecution
  listOpenWorkflow : StartTimeFilter → Except String (List WorkflowExecutionInfo)
  listClosedWorkflow : StartTimeFilter → Except String (List WorkflowExecutionInfo)
  describeWorkflowExecution : String → String → Except String DescribeWorkflowExecutionResponse
  getWorkflowHistory : String → String → List (Except String HistoryEvent)

/-- What a handler wrote to the `http.ResponseWriter` besides the status code. -/
inductive Body where
  | text (message : String)
  | health (status : String)
  | started (workflowId runId message : String)
  | workflows (workflows : List WorkflowInfo) (count : Nat)
  | status (view : StatusView)
  | history (workflowId runId : String) (events : List HistoryEventView) (count : Nat)
  deriving DecidableEq, Repr

/-- The response a handler wrote. -/
structure Response where
  code : Nat
  body : Body
  deriving DecidableEq, Repr

/-- The Go call `http.Error(w, message, code)`. -/
def httpError (message : String) (code : Nat) : Response :=
  { code := code, body := Body.text message }

/-- The effect of one handler invocation: the backend calls made, in order, and
the response written. -/
structure Outcome where
  calls : List BackendCall
  response : Response
  deriving DecidableEq, Repr

/-- The function `healthCheckHandler`. -/
def healthCheckHandler (_r : Request) : Outcome :=
  { calls := [], response := { code := StatusOK, body := Body.health "healthy" } }

/-- The function `startWorkflowHandler`. `stamp` is the rendering
`time.Now().Format("20060102-150405")`. -/
def startWorkflowHandler (cadenceClient : Backend) (stamp : String) (r : Request) : Outcome :=
  if r.method ≠ MethodPost then
    { calls := [], response := httpError "Method not allowed" StatusMethodNotAllowed }
  else
    match r.body with
    | Except.error _ =>
      { calls := [], response := httpError "Invalid request body" StatusBadRequest }
    | Except.ok member =>
      let decoded : String := member.getD ""
      let name : String := if decoded = "" then "World" else decoded
      let workflowOptions : StartWorkflowOptions :=
        { id := "hello-world-" ++ stamp
          taskList := TaskListName
          executionStartToCloseTimeout := minute * 10
          decisionTaskStartToCloseTimeout := minute }
      match cadenceClient.startWorkflow workflowOptions name with
      | Except.error err =>
        { calls := [BackendCall.startWorkflow workflowOptions name]
          response := httpError ("Failed to start workflow: " ++ err) StatusInternalServerError }
      | Except.ok we =>
        { calls := [BackendCall.startWorkflow workflowOptions name]
          response :=
            { code := StatusOK
              body := Body.started we.workflowId we.runId "Workflow started successfully" } }

/-- The time filter `listWorkflowsHandler` sends with both list requests:
`earliestTime := time.Now().Add(-24 * time.Hour).UnixNano()` and
`latestTime := time.Now().UnixNano()`, from the clock readings 0 and 1. -/
def listTimeFilter (clock : Nat → Time) : StartTimeFilter :=
  { earliestTime := (clock 0).unixNano + (-24 * hour)
    latestTime := (clock 1).unixNano }

/-- The function `listWorkflowsHandler`. `clock k` is the reading of the `k`-th
call of `time.Now()` in the request (readings 0 and 1 give the time filter, the
following ones the `time.Since` of the open executions); `UnixNano()` of a
reading is its nanosecond count. -/
def listWorkflowsHandler (cadenceClient : Backend) (clock : Nat → Time) (r : Request) :
    Outcome :=
  if r.method ≠ MethodGet then
    { calls := [], response := httpError "Method not allowed" StatusMethodNotAllowed }
  else
    let pageSize : Int := 100
    let filter : StartTimeFilter := listTimeFilter clock
    match cadenceClient.listOpenWorkflow filter with
    | Except.error err =>
      { calls := [BackendCall.listOpenWorkflow Domain pageSize filter]
        response :=
          httpError ("Failed to list open workflows: " ++ err) StatusInternalServerError }
    | Except.ok openExecutions =>
      match cadenceClient.listClosedWorkflow filter with
      | Except.error err =>
        { calls := [BackendCall.listOpenWorkflow Domain pageSize filter,
                    BackendCall.listClosedWorkflow Domain pageSize filter]
          response :=
            httpError ("Failed to list closed workflows: " ++ err) StatusInternalServerError }
      | Except.ok closedExecutions =>
        let workflows :=
          addClosedWorkflows closedExecutions (addOpenWorkflows clock 2 openExecutions [])
        { calls := [BackendCall.listOpenWorkflow Domain pageSize filter,
                    BackendCall.listClosedWorkflow Domain pageSize filter]
          response := { code := StatusOK, body := Body.workflows workflows workflows.length } }

/-- The function `getWorkflowStatusHandler`; `now` is the clock reading of its
`time.Since`. -/
def getWorkflowStatusHandler (cadenceClient : Backend) (now : Time) (r : Request) : Outcome :=
  if r.method ≠ MethodGet then
    { calls := [], response := httpError "Method not allowed" StatusMethodNotAllowed }
  else
    let workflowID := queryGet r.query "workflowId"
    let runID := queryGet r.query "runId"
    if workflowID = "" then
      { calls := [], response := httpError "workflowId parameter is required" StatusBadRequest }
    else
      match cadenceClient.describeWorkflowExecution workflowID runID with
      | Except.error err =>
        { calls := [BackendCall.describeWorkflowExecution workflowID runID]
          response :=
            httpError ("Failed to get workflow status: " ++ err) StatusInternalServerError }
      | Except.ok descResp =>
        { calls := [BackendCall.describeWorkflowExecution workflowID runID]
          response := { code := StatusOK, body := Body.status (statusView now descResp) } }

/-- The function `getWorkflowHistoryHandler`. -/
def getWorkflowHistoryHandler (cadenceClient : Backend) (r : Request) : Outcome :=
  if r.method ≠ MethodGet then
    { calls := [], response := httpError "Method not allowed" StatusMethodNotAllowed }
  else
    let workflowID := queryGet r.query "workflowId"
    let runID := queryGet r.query "runId"
    if workflowID = "" then
      { calls := [], response := httpError "workflowId parameter is required" StatusBadRequest }
    else
      let iter := cadenceClient.getWorkflowHistory workflowID runID
      let events := collectEvents iter []
      { calls := [BackendCall.getWorkflowHistory workflowID runID]
        response :=
          { code := StatusOK, body := Body.history workflowID runID events events.length } }

/-- The five routes `setupHTTPHandlers` registers. -/
inductive Route where
  | workflowsStart
  | workflowsList
  | workflowsStatus
  | workflowsHistory
  | health
  deriving DecidableEq, Repr

/-- The pattern each route is registered under. -/
def Route.pattern : Route → String
  | Route.workflowsStart => "/api/workflows/start"
  | Route.workflowsList => "/api/workflows/list"
  | Route.workflowsStatus => "/api/workflows/status"
  | Route.workflowsHistory => "/api/workflows/history"
  | Route.health => "/health"

/-- The function `setupHTTPHandlers`: the handler registered for each route.
`stamp` and `clock` are the clock readings the handlers take (`clock 0` for the
single reading of the status handler). -/
def setupHTTPHandlers (cadenceClient : Backend) (stamp : String) (clock : Nat → Time) :
    Route → Request → Outcome
  | Route.workflowsStart => startWorkflowHandler cadenceClient stamp
  | Route.workflowsList => listWorkflowsHandler cadenceClient clock
  | Route.workflowsStatus => getWorkflowStatusHandler cadenceClient (clock 0)
  | Route.workflowsHistory => getWorkflowHistoryHandler cadenceClient
  | Route.health => healthCheckHandler

/-! ## Reference definitions, following the specification's wording -/

/-- A backend answer (a query result, or one fetch of a stream) is an error. -/
def isError {α : Type} (x : Except String α) : Bool :=
  match x with
  | Except.error _ => true
  | Except.ok _ => false

/-- The event a fetch result carries, if it is not a failure. -/
def fetchedEvent (x : Except String HistoryEvent) : Option HistoryEvent :=
  match x with
  | Except.error _ => none
  | Except.ok event => some event

/-- The events of a stream that precede its first failed fetch (all of them when
no fetch fails), in stream order. -/
def eventsBeforeFirstFailure (stream : List (Except String HistoryEvent)) : List HistoryEvent :=
  (stream.takeWhile (fun x => !isError x)).filterMap fetchedEvent

/-- The seven event types for which the specification defines a details template. -/
def definedEventTypes : List String :=
  ["WorkflowExecutionStarted", "ActivityTaskScheduled", "ActivityTaskStarted",
   "ActivityTaskCompleted", "ActivityTaskFailed", "WorkflowExecutionCompleted",
   "WorkflowExecutionFailed"]

/-- The payload the details template of the event's type reads is present; the
templates of `ActivityTaskStarted` and `WorkflowExecutionCompleted` read none. -/
def templatePayloadPresent (event : HistoryEvent) : Bool :=
  if event.eventType = "WorkflowExecutionStarted" then
    event.workflowExecutionStartedEventAttributes.isSome
  else if event.eventType = "ActivityTaskScheduled" then
    match event.activityTaskScheduledEventAttributes with
    | some attrs =>
      match attrs.activityType with
      | some ty => ty.name.isSome
      | none => false
    | none => false
  else if event.eventType = "ActivityTaskCompleted" then
    event.activityTaskCompletedEventAttributes.isSome
  else if event.eventType = "ActivityTaskFailed" then
    match event.activityTaskFailedEventAttributes with
    | some attrs => attrs.reason.isSome
    | none => false
  else if event.eventType = "WorkflowExecutionFailed" then
    match event.workflowExecutionFailedEventAttributes with
    | some attrs => attrs.reason.isSome
    | none => false
  else true

/-- The views of the open executions of a list response, in order: the `i`-th one
is built with the clock reading `clock (k + i)`. -/
def openViews (clock : Nat → Time) (k : Nat) (executions : List WorkflowExecutionInfo) :
    List WorkflowInfo :=
  (executions.enumFrom k).map (fun p => openWorkflowInfo (clock p.1) p.2)

/-- The name a start request submits to the workflow: `World` when the request
has no name or an empty one, the name otherwise. -/
def expectedSubmittedName : Option String → String
  | none => "World"
  | some n => if n = "" then "World" else n

/-- The greeting for a start request: `Hello World!` when the request has no name
or an empty one, `Hello <name>!` otherwise. -/
def expectedGreeting : Option String → String
  | none => "Hello World!"
  | some n => if n = "" then "Hello World!" else "Hello " ++ n ++ "!"

/-- A response is a failure with status 500 and a plain-text body, which holds no
workflow entries. -/
def isServerError (resp : Response) : Bool :=
  resp.code == StatusInternalServerError &&
    match resp.body with
    | Body.text _ => true
    | _ => false

/-- An event of type `WorkflowExecutionStarted` whose attributes record is `nil`. -/
def startedWithoutAttributes : HistoryEvent :=
  { eventId := 1
    timestamp := 0
    eventType := "WorkflowExecutionStarted"
    workflowExecutionStartedEventAttributes := none
    activityTaskScheduledEventAttributes := none
    activityTaskCompletedEventAttributes := none
    activityTaskFailedEventAttributes := none
    workflowExecutionFailedEventAttributes := none }

/-- An event of type `ActivityTaskFailed` with reason `boom`. -/
def activityFailedBoom : HistoryEvent :=
  { eventId := 7
    timestamp := 1700000000000000000
    eventType := "ActivityTaskFailed"
    workflowExecutionStartedEventAttributes := none
    activityTaskScheduledEventAttributes := none
    activityTaskCompletedEventAttributes := none
    activityTaskFailedEventAttributes := some { reason := some "boom" }
    workflowExecutionFailedEventAttributes := none }

/-- An event of a type the handler has no template for. -/
def decisionTaskScheduled : HistoryEvent :=
  { eventId := 2
    timestamp := 1700000000000000001
    eventType := "DecisionTaskScheduled"
    workflowExecutionStartedEventAttributes := none
    activityTaskScheduledEventAttributes := none
    activityTaskCompletedEventAttributes := none
    activityTaskFailedEventAttributes := none
    workflowExecutionFailedEventAttributes := none }

/-- An event of type `WorkflowExecutionFailed` with reason `boom`. -/
def workflowFailedBoom : HistoryEvent :=
  { eventId := 9
    timestamp := 1700000000000000003
    eventType := "WorkflowExecutionFailed"
    workflowExecutionStartedEventAttributes := none
    activityTaskScheduledEventAttributes := none
    activityTaskCompletedEventAttributes := none
    activityTaskFailedEventAttributes := none
    workflowExecutionFailedEventAttributes := some { reason := some "boom" } }

/-- An event of type `ActivityTaskScheduled` for the activity `helloWorldActivity`. -/
def activityScheduledHello : HistoryEvent :=
  { eventId := 5
    timestamp := 1700000000000000002
    eventType := "ActivityTaskScheduled"
    workflowExecutionStartedEventAttributes := none
    activityTaskScheduledEventAttributes :=
      some { activityType := some { name := some "helloWorldActivity" } }
    activityTaskCompletedEventAttributes := none
    activityTaskFailedEventAttributes := none
    workflowExecutionFailedEventAttributes := none }

/-- An execution record of a run that started at `1700000000000000000` and closed
five seconds later with close status `COMPLETED`. -/
def completedExecution : WorkflowExecutionInfo :=
  { execution := { workflowId := "wf-1", runId := "run-1" }
    type := some { name := some "helloWorldWorkflow" }
    startTime := 1700000000000000000
    closeTime := some 1700000005000000000
    closeStatus := some 0
    historyLength := some 11 }

/-- An execution record of a run that started at `1700000100000000000` and has
not closed. -/
def runningExecution : WorkflowExecutionInfo :=
  { execution := { workflowId := "wf-2", runId := "run-2" }
    type := some { name := some "helloWorldWorkflow" }
    startTime := 1700000100000000000
    closeTime := none
    closeStatus := none
    historyLength := some 3 }

/-- A backend that knows the run `wf-1`/`run-1`: its history stream gives two
events, then a failed fetch, then one more event. -/
def sampleBackend : Backend :=
  { startWorkflow := fun options _ => Except.ok { workflowId := options.id, runId := "run-1" }
    listOpenWorkflow := fun _ => Except.ok [runningExecution]
    listClosedWorkflow := fun _ => Except.ok [completedExecution]
    describeWorkflowExecution := fun workflowID _ =>
      if workflowID = "wf-1" then
        Except.ok { workflowExecutionInfo := completedExecution, pendingActivities := [] }
      else Except.error "EntityNotExistsError"
    getWorkflowHistory := fun _ _ =>
      [Except.ok decisionTaskScheduled, Except.ok activityFailedBoom,
       Except.error "connection reset", Except.ok workflowFailedBoom] }

/-- The request `GET /api/workflows/history?workflowId=wf-1&runId=run-1`. -/
def sampleHistoryRequest : Request :=
  { method := "GET"
    query := [("workflowId", "wf-1"), ("runId", "run-1")]
    body := Except.ok none }

/-- An execution record with the earliest start time and the latest close time an
`int64` nanosecond timestamp can hold. -/
def extremeClosedExecution : WorkflowExecutionInfo :=
  { execution := { workflowId := "wf-3", runId := "run-3" }
    type := none
    startTime := -9223372036854775808
    closeTime := some 9223372036854775807
    closeStatus := some 0
    historyLength := none }

/-- An execution record with the earliest start time an `int64` nanosecond
timestamp can hold and no close time. -/
def extremeRunningExecution : WorkflowExecutionInfo :=
  { execution := { workflowId := "wf-4", runId := "run-4" }
    type := none
    startTime := -9223372036854775808
    closeTime := none
    closeStatus := none
    historyLength := none }

/-- An execution record with a close time and no close status. -/
def closedWithoutStatus : WorkflowExecutionInfo :=
  { execution := { workflowId := "wf-5", runId := "run-5" }
    type := none
    startTime := 1700000000000000000
    closeTime := some 1700000005000000000
    closeStatus := none
    historyLength := none }

/-- An execution record with a close status and no close time. -/
def closedWithoutCloseTime : WorkflowExecutionInfo :=
  { execution := { workflowId := "wf-6", runId := "run-6" }
    type := none
    startTime := 1700000000000000000
    closeTime := none
    closeStatus := some 1
    historyLength := none }

/-- A clock whose `k`-th reading is `k` nanoseconds after `1700000200000000000`. -/
def sampleClock (k : Nat) : Time :=
  timeUnix 0 (1700000200000000000 + k)

/-- The request `DELETE /api/workflows/list`, also sent to the other routes. -/
def deleteRequest : Request :=
  { method := "DELETE"
    query := [("workflowId", "wf-1")]
    body := Except.ok none }

/-- The request `GET /api/workflows/list`. -/
def sampleListRequest : Request :=
  { method := "GET"
    query := []
    body := Except.ok none }

/-- The request `GET /api/workflows/status?runId=run-1`, without workflow id. -/
def requestWithoutWorkflowId : Request :=
  { method := "GET"
    query := [("runId", "run-1")]
    body := Except.ok none }

/-- The request `POST /api/workflows/start` with body `{"name": "Ada"}`. -/
def startAdaRequest : Request :=
  { method := "POST"
    query := []
    body := Except.ok (some "Ada") }

/-- The request `POST /api/workflows/start` with body `{}`. -/
def startAnonymousRequest : Request :=
  { method := "POST"
    query := []
    body := Except.ok none }

/-- A backend whose open-partition query succeeds and whose closed-partition
query fails. -/
def closedPartitionDown : Backend :=
  { sampleBackend with listClosedWorkflow := fun _ => Except.error "timeout" }

/-! ## Properties of the history projector -/

theorem append_ne_empty (a b : String) (h : a ≠ "") : a ++ b ≠ "" := by
  intro hab
  have hlen : (a ++ b).length = 0 := by rw [hab]; rfl
  rw [String.length_append] at hlen
  have ha : a.length = 0 := by omega
  have hdata : a.data = [] := List.length_eq_zero.mp ha
  exact h (String.ext hdata)

/-- C1 (counterexample): an event of the defined type `WorkflowExecutionStarted`
whose attributes record is absent gets the empty details string. -/
theorem eventDetails_started_without_attributes_empty :
    startedWithoutAttributes.eventType ∈ definedEventTypes ∧
      eventDetails startedWithoutAttributes = "" := by
  constructor
  · simp [startedWithoutAttributes, definedEventTypes]
  · simp [startedWithoutAttributes, eventDetails]

/-- C1 (amended): the details mapping is a total function; for an event of one of
the seven defined types the details string is non-empty exactly when the payload
its template reads is present (always, for `ActivityTaskStarted` and
`WorkflowExecutionCompleted`), and for an event of any other type it is empty. -/
theorem eventDetails_nonempty_iff_payload (event : HistoryEvent) :
    (event.eventType ∈ definedEventTypes →
        (eventDetails event ≠ "" ↔ templatePayloadPresent event = true)) ∧
      (event.eventType ∉ definedEventTypes → eventDetails event = "") := by
  obtain ⟨id, ts, ty, a, b, c, d, e⟩ := event
  simp only [eventDetails, templatePayloadPresent, definedEventTypes]
  by_cases h1 : ty = "WorkflowExecutionStarted"
  · subst h1; cases a <;> simp
  by_cases h2 : ty = "ActivityTaskScheduled"
  · subst h2
    rcases b with _ | ⟨_ | ⟨_ | n⟩⟩ <;> simp
    exact append_ne_empty _ _ (by decide)
  by_cases h3 : ty = "ActivityTaskStarted"
  · subst h3; simp
  by_cases h4 : ty = "ActivityTaskCompleted"
  · subst h4; cases c <;> simp
  by_cases h5 : ty = "ActivityTaskFailed"
  · subst h5
    rcases d with _ | ⟨_ | n⟩ <;> simp
    exact append_ne_empty _ _ (by decide)
  by_cases h6 : ty = "WorkflowExecutionCompleted"
  · subst h6; simp
  by_cases h7 : ty = "WorkflowExecutionFailed"
  · subst h7
    rcases e with _ | ⟨_ | n⟩ <;> simp
    exact append_ne_empty _ _ (by decide)
  simp [h1, h2, h3, h4, h5, h6, h7]

/-- C1 (witness): the `ActivityTaskFailed` event with reason `boom` has its payload
and non-empty details; a `DecisionTaskScheduled` event has empty details. -/
theorem eventDetails_nonempty_iff_payload_witness :
    (activityFailedBoom.eventType ∈ definedEventTypes ∧
        templatePayloadPresent activityFailedBoom = true ∧
        eventDetails activityFailedBoom ≠ "") ∧
      (decisionTaskScheduled.eventType ∉ definedEventTypes ∧
        eventDetails decisionTaskScheduled = "") :=
  have hmem : activityFailedBoom.eventType ∈ definedEventTypes := by
    simp [activityFailedBoom, definedEventTypes]
  have hpay : templatePayloadPresent activityFailedBoom = true := by
    simp [activityFailedBoom, templatePayloadPresent]
  have hnot : decisionTaskScheduled.eventType ∉ definedEventTypes := by
    simp [decisionTaskScheduled, definedEventTypes]
  ⟨⟨hmem, hpay, ((eventDetails_nonempty_iff_payload activityFailedBoom).1 hmem).2 hpay⟩,
    ⟨hnot, (eventDetails_nonempty_iff_payload decisionTaskScheduled).2 hnot⟩⟩

/-- C2: whatever the other fields of an event are, an `ActivityTaskFailed` event
carrying reason `r` gets details `"Activity failed: " ++ r`, a
`WorkflowExecutionFailed` event carrying reason `r` gets `"Workflow failed: " ++ r`,
and an `ActivityTaskScheduled` event carrying activity type name `t` gets
`"Activity: " ++ t`; the appended history entry carries that string. -/
theorem eventDetails_templates_filled (event : HistoryEvent) (r t : String) :
    (event.eventType = "ActivityTaskFailed" →
        event.activityTaskFailedEventAttributes = some { reason := some r } →
        eventDetails event = "Activity failed: " ++ r ∧
          (historyEventOf event).details = "Activity failed: " ++ r) ∧
      (event.eventType = "WorkflowExecutionFailed" →
        event.workflowExecutionFailedEventAttributes = some { reason := some r } →
        eventDetails event = "Workflow failed: " ++ r ∧
          (historyEventOf event).details = "Workflow failed: " ++ r) ∧
      (event.eventType = "ActivityTaskScheduled" →
        event.activityTaskScheduledEventAttributes =
          some { activityType := some { name := some t } } →
        eventDetails event = "Activity: " ++ t ∧
          (historyEventOf event).details = "Activity: " ++ t) := by
  refine ⟨?_, ?_, ?_⟩
  · intro hty hattrs
    simp [historyEventOf, eventDetails, hty, hattrs]
  · intro hty hattrs
    simp [historyEventOf, eventDetails, hty, hattrs]
  · intro hty hattrs
    simp [historyEventOf, eventDetails, hty, hattrs]

/-- C2 (witness): reason `boom` gives `Activity failed: boom` and
`Workflow failed: boom`; activity type `helloWorldActivity` gives
`Activity: helloWorldActivity`. -/
theorem eventDetails_templates_filled_witness :
    eventDetails activityFailedBoom = "Activity failed: boom" ∧
      eventDetails workflowFailedBoom = "Workflow failed: boom" ∧
      eventDetails activityScheduledHello = "Activity: helloWorldActivity" :=
  ⟨((eventDetails_templates_filled activityFailedBoom "boom" "").1 rfl rfl).1,
    ((eventDetails_templates_filled workflowFailedBoom "boom" "").2.1 rfl rfl).1,
    ((eventDetails_templates_filled activityScheduledHello "" "helloWorldActivity").2.2
      rfl rfl).1⟩

/-! ## Properties of `GetHistory` -/

theorem collectEvents_eq (stream : List (Except String HistoryEvent))
    (events : List HistoryEventView) :
    collectEvents stream events =
      events ++ (eventsBeforeFirstFailure stream).map historyEventOf := by
  induction stream generalizing events with
  | nil => simp [collectEvents, eventsBeforeFirstFailure]
  | cons x rest ih =>
    cases x with
    | error e => simp [collectEvents, eventsBeforeFirstFailure, isError]
    | ok event =>
      have hrest := ih (events ++ [historyEventOf event])
      simp only [eventsBeforeFirstFailure] at hrest
      simp [collectEvents, eventsBeforeFirstFailure, isError, fetchedEvent, hrest]

/-- C3: a `GET` with a workflow id is answered with status 200, never with an
error: the events returned are the projections, in order, of the events of the
backend's stream that precede its first failed fetch (all of them when no fetch
fails), each with the event's id, type and timestamp, and `count` is their number;
a stream without events gives the empty sequence and count 0. -/
theorem getHistory_returns_events_before_first_failure (cadenceClient : Backend)
    (r : Request) (hmethod : r.method = MethodGet)
    (hid : queryGet r.query "workflowId" ≠ "") :
    (getWorkflowHistoryHandler cadenceClient r).response =
        { code := StatusOK
          body := Body.history (queryGet r.query "workflowId") (queryGet r.query "runId")
            ((eventsBeforeFirstFailure
              (cadenceClient.getWorkflowHistory (queryGet r.query "workflowId")
                (queryGet r.query "runId"))).map historyEventOf)
            ((eventsBeforeFirstFailure
              (cadenceClient.getWorkflowHistory (queryGet r.query "workflowId")
                (queryGet r.query "runId"))).map historyEventOf).length } ∧
      (∀ event : HistoryEvent,
        (historyEventOf event).eventID = event.eventId ∧
          (historyEventOf event).eventType = event.eventType ∧
          (historyEventOf event).timestamp.unixNano = event.timestamp) ∧
      (cadenceClient.getWorkflowHistory (queryGet r.query "workflowId")
            (queryGet r.query "runId") = [] →
        (getWorkflowHistoryHandler cadenceClient r).response =
          { code := StatusOK
            body := Body.history (queryGet r.query "workflowId") (queryGet r.query "runId")
              [] 0 }) := by
  have hresp : (getWorkflowHistoryHandler cadenceClient r).response =
      { code := StatusOK
        body := Body.history (queryGet r.query "workflowId") (queryGet r.query "runId")
          ((eventsBeforeFirstFailure
            (cadenceClient.getWorkflowHistory (queryGet r.query "workflowId")
              (queryGet r.query "runId"))).map historyEventOf)
          ((eventsBeforeFirstFailure
            (cadenceClient.getWorkflowHistory (queryGet r.query "workflowId")
              (queryGet r.query "runId"))).map historyEventOf).length } := by
    simp [getWorkflowHistoryHandler, hmethod, hid, collectEvents_eq]
  refine ⟨hresp, ?_, ?_⟩
  · intro event
    simp [historyEventOf, timeUnix]
  · intro hempty
    rw [hresp, hempty]
    simp [eventsBeforeFirstFailure]

/-- C3 (witness): a stream of two events, a failed fetch and a further event
gives the projections of the first two events and count 2. -/
theorem getHistory_returns_events_before_first_failure_witness :
    sampleHistoryRequest.method = MethodGet ∧
      queryGet sampleHistoryRequest.query "workflowId" ≠ "" ∧
      (getWorkflowHistoryHandler sampleBackend sampleHistoryRequest).response =
        { code := StatusOK
          body := Body.history "wf-1" "run-1"
            [historyEventOf decisionTaskScheduled, historyEventOf activityFailedBoom] 2 } :=
  have hmethod : sampleHistoryRequest.method = MethodGet := rfl
  have hid : queryGet sampleHistoryRequest.query "workflowId" ≠ "" := by
    simp [sampleHistoryRequest, queryGet]
  ⟨hmethod, hid,
    (getHistory_returns_events_before_first_failure sampleBackend sampleHistoryRequest
      hmethod hid).1.trans (by
        simp [sampleHistoryRequest, sampleBackend, queryGet, eventsBeforeFirstFailure,
          isError, fetchedEvent])⟩

/-! ## Properties of the execution views -/

theorem Time.Sub_eq_of_fits (t u : Time) (hlo : minDuration ≤ t.unixNano - u.unixNano)
    (hhi : t.unixNano - u.unixNano ≤ maxDuration) : t.Sub u = t.unixNano - u.unixNano := by
  unfold Time.Sub
  simp only
  rw [if_neg (by omega), if_neg (by omega)]

theorem closeStatusString_ne_running (v : Int) : closeStatusString v ≠ "RUNNING" := by
  unfold closeStatusString
  split_ifs <;> try decide
  intro h
  have hlen := congrArg String.length h
  simp only [String.length_append] at hlen
  have h1 : "WorkflowExecutionCloseStatus(".length = 29 := by decide
  have h2 : "RUNNING".length = 7 := by decide
  omega

/-- C4 (counterexample): for the record that starts at the least and closes at
the greatest `int64` timestamp the reported execution time is the greatest
duration, not the difference of the two; and for a running record that starts at
the least timestamp two polls one second apart report the same execution time. -/
theorem statusView_executionTime_saturates :
    (extremeClosedExecution.closeTime = some 9223372036854775807 ∧
        (statusView (timeUnix 0 1700000000000000000)
            { workflowExecutionInfo := extremeClosedExecution
              pendingActivities := [] }).executionTime ≠
          9223372036854775807 - extremeClosedExecution.startTime) ∧
      (extremeRunningExecution.closeTime = none ∧
        (timeUnix 0 1700000000000000000).unixNano < (timeUnix 0 1700000001000000000).unixNano ∧
        ¬ (statusView (timeUnix 0 1700000000000000000)
            { workflowExecutionInfo := extremeRunningExecution
              pendingActivities := [] }).executionTime <
          (statusView (timeUnix 0 1700000001000000000)
            { workflowExecutionInfo := extremeRunningExecution
              pendingActivities := [] }).executionTime) := by
  refine ⟨⟨rfl, ?_⟩, rfl, ?_, ?_⟩
  · simp [statusView, extremeClosedExecution, Time.Sub, timeUnix, maxDuration]
  · simp [timeUnix]
  · simp [statusView, extremeRunningExecution, Time.Sub, timeSince, timeUnix, maxDuration]

/-- C4 (amended): in the status view, for an execution with a close time the
execution time does not depend on the clock reading and equals
`closeTime - startTime` whenever that difference fits a `time.Duration`; for an
execution without a close time it equals `now - startTime` whenever that fits, so
for two polls `now1 < now2` whose differences fit it is strictly greater at the
second. -/
theorem statusView_executionTime (descResp : DescribeWorkflowExecutionResponse) :
    (∀ c : Int, descResp.workflowExecutionInfo.closeTime = some c →
        (∀ now now2 : Time,
          (statusView now descResp).executionTime = (statusView now2 descResp).executionTime) ∧
        (minDuration ≤ c - descResp.workflowExecutionInfo.startTime →
          c - descResp.workflowExecutionInfo.startTime ≤ maxDuration →
          ∀ now : Time, (statusView now descResp).executionTime =
            c - descResp.workflowExecutionInfo.startTime)) ∧
      (descResp.workflowExecutionInfo.closeTime = none →
        ∀ now1 now2 : Time,
          minDuration ≤ now1.unixNano - descResp.workflowExecutionInfo.startTime →
          now2.unixNano - descResp.workflowExecutionInfo.startTime ≤ maxDuration →
          now1.unixNano < now2.unixNano →
          (statusView now1 descResp).executionTime =
              now1.unixNano - descResp.workflowExecutionInfo.startTime ∧
            (statusView now2 descResp).executionTime =
              now2.unixNano - descResp.workflowExecutionInfo.startTime ∧
            (statusView now1 descResp).executionTime <
              (statusView now2 descResp).executionTime) := by
  refine ⟨?_, ?_⟩
  · intro c hc
    refine ⟨?_, ?_⟩
    · intro now now2
      simp [statusView, hc]
    · intro hlo hhi now
      simp only [statusView, hc]
      rw [Time.Sub_eq_of_fits _ _ (by simpa [timeUnix] using hlo)
        (by simpa [timeUnix] using hhi)]
      simp [timeUnix]
  · intro hc now1 now2 hlo hhi hlt
    have e1 : (statusView now1 descResp).executionTime =
        now1.unixNano - descResp.workflowExecutionInfo.startTime := by
      simp only [statusView, hc, timeSince]
      rw [Time.Sub_eq_of_fits _ _ (by simp only [timeUnix]; omega)
        (by simp only [timeUnix]; omega)]
      simp [timeUnix]
    have e2 : (statusView now2 descResp).executionTime =
        now2.unixNano - descResp.workflowExecutionInfo.startTime := by
      simp only [statusView, hc, timeSince]
      rw [Time.Sub_eq_of_fits _ _ (by simp only [timeUnix]; omega)
        (by simp only [timeUnix]; omega)]
      simp [timeUnix]
    refine ⟨e1, e2, ?_⟩
    rw [e1, e2]
    omega

/-- C4 (witness): the run that closed five seconds after its start reports five
seconds; the running run reports more at the later of two polls. -/
theorem statusView_executionTime_witness :
    (statusView (sampleClock 0)
        { workflowExecutionInfo := completedExecution
          pendingActivities := [] }).executionTime =
        1700000005000000000 - completedExecution.startTime ∧
      (statusView (sampleClock 0)
        { workflowExecutionInfo := runningExecution
          pendingActivities := [] }).executionTime <
        (statusView (sampleClock 1)
          { workflowExecutionInfo := runningExecution
            pendingActivities := [] }).executionTime :=
  ⟨((statusView_executionTime
      { workflowExecutionInfo := completedExecution, pendingActivities := [] }).1
      1700000005000000000 rfl).2 (by decide) (by decide) (sampleClock 0),
    ((statusView_executionTime
      { workflowExecutionInfo := runningExecution, pendingActivities := [] }).2
      rfl (sampleClock 0) (sampleClock 1) (by decide) (by decide) (by decide)).2.2⟩

theorem addOpenWorkflows_eq (clock : Nat → Time) (k : Nat)
    (executions : List WorkflowExecutionInfo) (workflows : List WorkflowInfo) :
    addOpenWorkflows clock k executions workflows =
      workflows ++ openViews clock k executions := by
  induction executions generalizing k workflows with
  | nil => simp [addOpenWorkflows, openViews]
  | cons exec rest ih =>
    have hrest := ih (k + 1) (workflows ++ [openWorkflowInfo (clock k) exec])
    simp only [openViews] at hrest
    simp [addOpenWorkflows, openViews, List.enumFrom, hrest]

theorem addClosedWorkflows_eq (executions : List WorkflowExecutionInfo)
    (workflows : List WorkflowInfo) :
    addClosedWorkflows executions workflows =
      workflows ++ executions.map closedWorkflowInfo := by
  induction executions generalizing workflows with
  | nil => simp [addClosedWorkflows]
  | cons exec rest ih =>
    simp [addClosedWorkflows, ih]

theorem openViews_length (clock : Nat → Time) (k : Nat)
    (executions : List WorkflowExecutionInfo) :
    (openViews clock k executions).length = executions.length := by
  simp [openViews]

theorem listWorkflowsHandler_ok (cadenceClient : Backend) (clock : Nat → Time) (r : Request)
    (hmethod : r.method = MethodGet) (os cs : List WorkflowExecutionInfo)
    (hopen : cadenceClient.listOpenWorkflow (listTimeFilter clock) = Except.ok os)
    (hclosed : cadenceClient.listClosedWorkflow (listTimeFilter clock) = Except.ok cs) :
    (listWorkflowsHandler cadenceClient clock r).response =
      { code := StatusOK
        body := Body.workflows (openViews clock 2 os ++ cs.map closedWorkflowInfo)
          (os.length + cs.length) } := by
  simp [listWorkflowsHandler, hmethod, hopen, hclosed, addOpenWorkflows_eq,
    addClosedWorkflows_eq, openViews_length]

theorem listWorkflowsHandler_body (cadenceClient : Backend) (clock : Nat → Time) (r : Request)
    (ws : List WorkflowInfo) (n : Nat)
    (hbody : (listWorkflowsHandler cadenceClient clock r).response.body = Body.workflows ws n) :
    ∃ os cs, cadenceClient.listClosedWorkflow (listTimeFilter clock) = Except.ok cs ∧
      ws = openViews clock 2 os ++ cs.map closedWorkflowInfo := by
  by_cases hmethod : r.method = MethodGet
  · cases hopen : cadenceClient.listOpenWorkflow (listTimeFilter clock) with
    | error e =>
      simp [listWorkflowsHandler, hmethod, hopen, httpError] at hbody
    | ok os =>
      cases hclosed : cadenceClient.listClosedWorkflow (listTimeFilter clock) with
      | error e =>
        simp [listWorkflowsHandler, hmethod, hopen, hclosed, httpError] at hbody
      | ok cs =>
        rw [listWorkflowsHandler_ok cadenceClient clock r hmethod os cs hopen hclosed] at hbody
        simp only [Body.workflows.injEq] at hbody
        exact ⟨os, cs, rfl, hbody.1.symm⟩
  · simp [listWorkflowsHandler, hmethod, httpError] at hbody

theorem openViews_entry (clock : Nat → Time) (k : Nat)
    (executions : List WorkflowExecutionInfo) (w : WorkflowInfo)
    (hw : w ∈ openViews clock k executions) :
    w.status = "RUNNING" ∧ w.closeTime = none := by
  simp only [openViews, List.mem_map] at hw
  obtain ⟨p, _, hp⟩ := hw
  subst hp
  simp [openWorkflowInfo]

theorem closedWorkflowInfo_status (exec : WorkflowExecutionInfo) :
    (closedWorkflowInfo exec).status ≠ "RUNNING" := by
  unfold closedWorkflowInfo
  cases exec.closeStatus with
  | none => simp
  | some v => exact closeStatusString_ne_running v

theorem closedWorkflowInfo_closeTime (exec : WorkflowExecutionInfo) :
    (closedWorkflowInfo exec).closeTime.isSome = exec.closeTime.isSome := by
  unfold closedWorkflowInfo
  cases exec.closeTime <;> simp

/-- C5 (counterexample): for a record with a close time and no close status the
status view has `closeTime` present and status `RUNNING`; for a record of the
closed partition with a close status and no close time the list entry has a
status other than `RUNNING` and no `closeTime`. -/
theorem closeTime_and_status_disagree :
    ((statusView (sampleClock 0)
          { workflowExecutionInfo := closedWithoutStatus
            pendingActivities := [] }).closeTime.isSome = true ∧
        (statusView (sampleClock 0)
          { workflowExecutionInfo := closedWithoutStatus
            pendingActivities := [] }).status = "RUNNING") ∧
      ((closedWorkflowInfo closedWithoutCloseTime).closeTime = none ∧
        (closedWorkflowInfo closedWithoutCloseTime).status ≠ "RUNNING") := by
  refine ⟨⟨?_, ?_⟩, ?_, ?_⟩
  · simp [statusView, closedWithoutStatus]
  · simp [statusView, closedWithoutStatus]
  · simp [closedWorkflowInfo, closedWithoutCloseTime]
  · exact closedWorkflowInfo_status closedWithoutCloseTime

/-- C5 (amended): in the status view `closeTime` is present exactly when the
record's close time is set and the status differs from `RUNNING` exactly when the
record's close status is set, so `closeTime` is present iff the status is not
`RUNNING` for every record that sets both or neither. In a list response every
entry with `closeTime` present has a status other than `RUNNING`, and `closeTime`
is present iff the status is not `RUNNING` in every entry when every record of the
closed partition has its close time set. -/
theorem closeTime_present_iff_not_running :
    (∀ (now : Time) (descResp : DescribeWorkflowExecutionResponse),
        (statusView now descResp).closeTime.isSome =
            descResp.workflowExecutionInfo.closeTime.isSome ∧
          ((statusView now descResp).status ≠ "RUNNING" ↔
            descResp.workflowExecutionInfo.closeStatus.isSome = true) ∧
          (descResp.workflowExecutionInfo.closeTime.isSome =
              descResp.workflowExecutionInfo.closeStatus.isSome →
            ((statusView now descResp).closeTime.isSome = true ↔
              (statusView now descResp).status ≠ "RUNNING"))) ∧
      (∀ (cadenceClient : Backend) (clock : Nat → Time) (r : Request)
          (ws : List WorkflowInfo) (n : Nat),
        (listWorkflowsHandler cadenceClient clock r).response.body = Body.workflows ws n →
          (∀ w ∈ ws, w.closeTime.isSome = true → w.status ≠ "RUNNING") ∧
          ((∀ cs, cadenceClient.listClosedWorkflow (listTimeFilter clock) = Except.ok cs →
              ∀ exec ∈ cs, exec.closeTime.isSome = true) →
            ∀ w ∈ ws, (w.closeTime.isSome = true ↔ w.status ≠ "RUNNING"))) := by
  refine ⟨?_, ?_⟩
  · intro now descResp
    have hclose : (statusView now descResp).closeTime.isSome =
        descResp.workflowExecutionInfo.closeTime.isSome := by
      cases hc : descResp.workflowExecutionInfo.closeTime <;> simp [statusView, hc]
    have hstatus : (statusView now descResp).status ≠ "RUNNING" ↔
        descResp.workflowExecutionInfo.closeStatus.isSome = true := by
      cases hs : descResp.workflowExecutionInfo.closeStatus with
      | none => simp [statusView, hs]
      | some v => simpa [statusView, hs] using closeStatusString_ne_running v
    refine ⟨hclose, hstatus, ?_⟩
    intro hboth
    rw [hclose, hstatus, hboth]
  · intro cadenceClient clock r ws n hbody
    obtain ⟨os, cs, hclosed, hws⟩ := listWorkflowsHandler_body cadenceClient clock r ws n hbody
    subst hws
    refine ⟨?_, ?_⟩
    · intro w hw hsome
      rcases List.mem_append.mp hw with hopen | hcl
      · have hnone := (openViews_entry clock 2 os w hopen).2
        rw [hnone] at hsome
        simp at hsome
      · obtain ⟨exec, _, hexec⟩ := List.mem_map.mp hcl
        subst hexec
        exact closedWorkflowInfo_status exec
    · intro hall w hw
      rcases List.mem_append.mp hw with hopen | hcl
      · obtain ⟨hrun, hnone⟩ := openViews_entry clock 2 os w hopen
        simp [hrun, hnone]
      · obtain ⟨exec, hmem, hexec⟩ := List.mem_map.mp hcl
        subst hexec
        have hset := hall cs hclosed exec hmem
        rw [closedWorkflowInfo_closeTime, hset]
        simp [closedWorkflowInfo_status exec]

/-- C5 (witness): the status view of the completed run has `closeTime` present and
a status other than `RUNNING`; so has every entry with `closeTime` present of the
list response of the sample backend. -/
theorem closeTime_present_iff_not_running_witness :
    ((statusView (sampleClock 0)
          { workflowExecutionInfo := completedExecution
            pendingActivities := [] }).closeTime.isSome = true ∧
        (statusView (sampleClock 0)
          { workflowExecutionInfo := completedExecution
            pendingActivities := [] }).status ≠ "RUNNING") ∧
      (listWorkflowsHandler sampleBackend sampleClock sampleListRequest).response.body =
          Body.workflows
            [openWorkflowInfo (sampleClock 2) runningExecution,
              closedWorkflowInfo completedExecution] 2 ∧
      ∀ w ∈ [openWorkflowInfo (sampleClock 2) runningExecution,
              closedWorkflowInfo completedExecution],
        (w.closeTime.isSome = true ↔ w.status ≠ "RUNNING") :=
  have hview : (statusView (sampleClock 0)
      { workflowExecutionInfo := completedExecution
        pendingActivities := [] }).closeTime.isSome = true := by
    simp [statusView, completedExecution]
  have hbody : (listWorkflowsHandler sampleBackend sampleClock sampleListRequest).response.body =
      Body.workflows
        [openWorkflowInfo (sampleClock 2) runningExecution,
          closedWorkflowInfo completedExecution] 2 := by
    simp [listWorkflowsHandler, sampleListRequest, sampleBackend, MethodGet, addOpenWorkflows,
      addClosedWorkflows]
  ⟨⟨hview,
      ((closeTime_present_iff_not_running.1 (sampleClock 0)
        { workflowExecutionInfo := completedExecution, pendingActivities := [] }).2.2 rfl).1
        hview⟩,
    hbody,
    (closeTime_present_iff_not_running.2 sampleBackend sampleClock sampleListRequest _ _
      hbody).2 (by
        intro cs hcs exec hexec
        have hcs2 : cs = [completedExecution] := by
          simpa [sampleBackend] using hcs.symm
        subst hcs2
        simp at hexec
        subst hexec
        rfl)⟩

/-! ## Properties of `ListExecutions` -/

theorem Time.Sub_eq_clamp (t u : Time) :
    t.Sub u =
      max (-9223372036854775808) (min 9223372036854775807 (t.unixNano - u.unixNano)) := by
  unfold Time.Sub maxDuration minDuration
  simp only
  split_ifs <;> omega

theorem typeName_eq (ty : Option NamedType) :
    typeName ty = (ty.bind (fun t => t.name)).getD "" := by
  rcases ty with _ | ⟨_ | n⟩ <;> rfl

theorem openWorkflowInfo_eq (now : Time) (exec : WorkflowExecutionInfo) :
    openWorkflowInfo now exec =
      { workflowID := exec.execution.workflowId
        runID := exec.execution.runId
        workflowType := (exec.type.bind (fun t => t.name)).getD ""
        startTime := { unixNano := exec.startTime }
        closeTime := none
        status := "RUNNING"
        executionTime :=
          max (-9223372036854775808)
            (min 9223372036854775807 (now.unixNano - exec.startTime)) } := by
  simp [openWorkflowInfo, timeSince, Time.Sub_eq_clamp, typeName_eq, timeUnix]

theorem closedWorkflowInfo_eq (exec : WorkflowExecutionInfo) :
    closedWorkflowInfo exec =
      { workflowID := exec.execution.workflowId
        runID := exec.execution.runId
        workflowType := (exec.type.bind (fun t => t.name)).getD ""
        startTime := { unixNano := exec.startTime }
        closeTime := exec.closeTime.map (fun c => { unixNano := c })
        status := (exec.closeStatus.map closeStatusString).getD "COMPLETED"
        executionTime :=
          (exec.closeTime.map (fun c =>
            max (-9223372036854775808)
              (min 9223372036854775807 (c - exec.startTime)))).getD 0 } := by
  obtain ⟨execution, type, startTime, closeTime, closeStatus, historyLength⟩ := exec
  cases closeTime <;> cases closeStatus <;>
    simp [closedWorkflowInfo, Time.Sub_eq_clamp, typeName_eq, timeUnix]

/-- C6: a `GET` on the list route fails with status 500 and a plain-text body,
which holds no workflow entries, if and only if the open-partition query or the
closed-partition query gives an error; when both succeed the answer is status 200
with the views of the open executions followed by the views of the closed
executions, and `count` is the sum of the sizes of the two partitions. The view
of an execution carries its workflow id, its run id, the name of its type (empty
when absent) and its start time. An open one has status `RUNNING`, no close time
and as execution time the span from its start to the clock reading taken for it
(reading `2 + i` for the `i`-th), limited to the range of a `time.Duration`. A
closed one has the record's close time, as status the rendering of its close
status (`COMPLETED` when absent) and as execution time the span from start to
close, limited likewise (zero without a close time). -/
theorem listWorkflows_all_or_nothing (cadenceClient : Backend) (clock : Nat → Time)
    (r : Request) (hmethod : r.method = MethodGet) :
    (isServerError (listWorkflowsHandler cadenceClient clock r).response = true ↔
        (isError (cadenceClient.listOpenWorkflow (listTimeFilter clock)) = true ∨
          isError (cadenceClient.listClosedWorkflow (listTimeFilter clock)) = true)) ∧
      (∀ os cs : List WorkflowExecutionInfo,
        cadenceClient.listOpenWorkflow (listTimeFilter clock) = Except.ok os →
        cadenceClient.listClosedWorkflow (listTimeFilter clock) = Except.ok cs →
        (listWorkflowsHandler cadenceClient clock r).response =
          { code := 200
            body := Body.workflows
              ((os.enumFrom 2).map (fun p =>
                  ({ workflowID := p.2.execution.workflowId
                     runID := p.2.execution.runId
                     workflowType := (p.2.type.bind (fun t => t.name)).getD ""
                     startTime := { unixNano := p.2.startTime }
                     closeTime := none
                     status := "RUNNING"
                     executionTime :=
                       max (-9223372036854775808)
                         (min 9223372036854775807
                           ((clock p.1).unixNano - p.2.startTime)) } : WorkflowInfo)) ++
                cs.map (fun exec =>
                  ({ workflowID := exec.execution.workflowId
                     runID := exec.execution.runId
                     workflowType := (exec.type.bind (fun t => t.name)).getD ""
                     startTime := { unixNano := exec.startTime }
                     closeTime := exec.closeTime.map (fun c => { unixNano := c })
                     status := (exec.closeStatus.map closeStatusString).getD "COMPLETED"
                     executionTime :=
                       (exec.closeTime.map (fun c =>
                         max (-9223372036854775808)
                           (min 9223372036854775807 (c - exec.startTime)))).getD 0 } :
                    WorkflowInfo)))
              (os.length + cs.length) }) := by
  refine ⟨?_, ?_⟩
  · cases hopen : cadenceClient.listOpenWorkflow (listTimeFilter clock) with
    | error e =>
      simp [listWorkflowsHandler, hmethod, hopen, isServerError, isError, httpError]
    | ok os =>
      cases hclosed : cadenceClient.listClosedWorkflow (listTimeFilter clock) with
      | error e =>
        simp [listWorkflowsHandler, hmethod, hopen, hclosed, isServerError, isError, httpError]
      | ok cs =>
        simp [listWorkflowsHandler, hmethod, hopen, hclosed, isServerError, isError,
          StatusOK, StatusInternalServerError]
  · intro os cs hopen hclosed
    rw [listWorkflowsHandler_ok cadenceClient clock r hmethod os cs hopen hclosed]
    rw [funext closedWorkflowInfo_eq]
    simp only [openViews, openWorkflowInfo_eq, StatusOK]

/-- C6 (witness): when the open partition answers with one execution and the
closed-partition query fails, the list response is a 500; when both partitions
answer, the response lists the running run, then the completed run with its five
seconds of execution time, and count 2. -/
theorem listWorkflows_all_or_nothing_witness :
    (sampleListRequest.method = MethodGet ∧
        closedPartitionDown.listOpenWorkflow (listTimeFilter sampleClock) =
          Except.ok [runningExecution] ∧
        isError (closedPartitionDown.listClosedWorkflow (listTimeFilter sampleClock)) = true ∧
        isServerError (listWorkflowsHandler closedPartitionDown sampleClock
          sampleListRequest).response = true) ∧
      (listWorkflowsHandler sampleBackend sampleClock sampleListRequest).response =
        { code := 200
          body := Body.workflows
            [{ workflowID := "wf-2"
               runID := "run-2"
               workflowType := "helloWorldWorkflow"
               startTime := { unixNano := 1700000100000000000 }
               closeTime := none
               status := "RUNNING"
               executionTime := 100000000002 },
             { workflowID := "wf-1"
               runID := "run-1"
               workflowType := "helloWorldWorkflow"
               startTime := { unixNano := 1700000000000000000 }
               closeTime := some { unixNano := 1700000005000000000 }
               status := "COMPLETED"
               executionTime := 5000000000 }]
            2 } :=
  ⟨⟨rfl, rfl, rfl,
      (listWorkflows_all_or_nothing closedPartitionDown sampleClock sampleListRequest rfl).1.mpr
        (Or.inr rfl)⟩,
    ((listWorkflows_all_or_nothing sampleBackend sampleClock sampleListRequest rfl).2
      [runningExecution] [completedExecution] rfl rfl).trans (by
        simp [List.enumFrom, runningExecution, completedExecution, sampleClock, timeUnix,
          closeStatusString])⟩

/-! ## Properties of the request checks -/

/-- C7 (counterexample): a `DELETE` on `/health`, a method that is neither `GET`
nor `POST`, is answered with status 200 and the healthy body. -/
theorem health_answers_delete :
    deleteRequest.method ≠ MethodGet ∧ deleteRequest.method ≠ MethodPost ∧
      Route.health.pattern = "/health" ∧
      (setupHTTPHandlers sampleBackend "20240101-120000" sampleClock Route.health
        deleteRequest).response = { code := 200, body := Body.health "healthy" } := by
  refine ⟨by decide, by decide, rfl, rfl⟩

/-- C7 (amended): for each of the four routes under `/api/workflows` a request
whose method is neither `GET` nor `POST` is answered with status 405 and no
backend call is made; `/health` has no method check and answers every request,
whatever its method, with status 200 and the healthy body, without a backend
call. -/
theorem method_not_allowed_on_api_routes (cadenceClient : Backend) (stamp : String)
    (clock : Nat → Time) (route : Route) (r : Request) :
    (route ≠ Route.health → r.method ≠ "GET" → r.method ≠ "POST" →
        setupHTTPHandlers cadenceClient stamp clock route r =
          { calls := []
            response := { code := 405, body := Body.text "Method not allowed" } }) ∧
      setupHTTPHandlers cadenceClient stamp clock Route.health r =
        { calls := [], response := { code := 200, body := Body.health "healthy" } } := by
  refine ⟨?_, rfl⟩
  intro hroute hget hpost
  cases route <;>
    simp [setupHTTPHandlers, startWorkflowHandler, listWorkflowsHandler,
      getWorkflowStatusHandler, getWorkflowHistoryHandler, MethodGet, MethodPost, hget, hpost,
      httpError, StatusMethodNotAllowed] at hroute ⊢

/-- C7 (witness): a `DELETE` on `/api/workflows/list` is answered with 405; a
`GET`, a `POST` and a `DELETE` on `/health` are answered with 200 and the healthy
body. -/
theorem method_not_allowed_on_api_routes_witness :
    (Route.workflowsList ≠ Route.health ∧
        deleteRequest.method ≠ "GET" ∧ deleteRequest.method ≠ "POST" ∧
        setupHTTPHandlers sampleBackend "20240101-120000" sampleClock Route.workflowsList
            deleteRequest =
          { calls := []
            response := { code := 405, body := Body.text "Method not allowed" } }) ∧
      (sampleListRequest.method = "GET" ∧
        setupHTTPHandlers sampleBackend "20240101-120000" sampleClock Route.health
            sampleListRequest =
          { calls := [], response := { code := 200, body := Body.health "healthy" } }) ∧
      (startAdaRequest.method = "POST" ∧
        setupHTTPHandlers sampleBackend "20240101-120000" sampleClock Route.health
            startAdaRequest =
          { calls := [], response := { code := 200, body := Body.health "healthy" } }) ∧
      (deleteRequest.method = "DELETE" ∧
        setupHTTPHandlers sampleBackend "20240101-120000" sampleClock Route.health
            deleteRequest =
          { calls := [], response := { code := 200, body := Body.health "healthy" } }) :=
  ⟨⟨by decide, by decide, by decide,
      (method_not_allowed_on_api_routes sampleBackend "20240101-120000" sampleClock
        Route.workflowsList deleteRequest).1 (by decide) (by decide) (by decide)⟩,
    ⟨rfl, (method_not_allowed_on_api_routes sampleBackend "20240101-120000" sampleClock
        Route.workflowsList sampleListRequest).2⟩,
    ⟨rfl, (method_not_allowed_on_api_routes sampleBackend "20240101-120000" sampleClock
        Route.workflowsList startAdaRequest).2⟩,
    ⟨rfl, (method_not_allowed_on_api_routes sampleBackend "20240101-120000" sampleClock
        Route.workflowsList deleteRequest).2⟩⟩

theorem queryGet_of_absent (q : List (String × String)) (key : String)
    (habsent : ∀ p ∈ q, p.1 ≠ key) : queryGet q key = "" := by
  unfold queryGet
  have hnone : q.find? (fun p => p.1 == key) = none := by
    rw [List.find?_eq_none]
    intro p hp
    simpa using habsent p hp
  rw [hnone]

/-- C8: for a `GET` on the status route or the history route, when the
`workflowId` query parameter is empty, as it is when the parameter is missing, the
answer is status 400 and no backend call is made, whatever the other parameters
are; when it is not empty the answer is never status 400. -/
theorem missing_workflowId_is_bad_request (cadenceClient : Backend) (now : Time)
    (r : Request) (hmethod : r.method = MethodGet) :
    ((∀ p ∈ r.query, p.1 ≠ "workflowId") → queryGet r.query "workflowId" = "") ∧
      (queryGet r.query "workflowId" = "" →
        (getWorkflowStatusHandler cadenceClient now r).response.code = 400 ∧
          (getWorkflowStatusHandler cadenceClient now r).calls = [] ∧
          (getWorkflowHistoryHandler cadenceClient r).response.code = 400 ∧
          (getWorkflowHistoryHandler cadenceClient r).calls = []) ∧
      (queryGet r.query "workflowId" ≠ "" →
        (getWorkflowStatusHandler cadenceClient now r).response.code ≠ 400 ∧
          (getWorkflowHistoryHandler cadenceClient r).response.code ≠ 400) := by
  refine ⟨queryGet_of_absent r.query "workflowId", ?_, ?_⟩
  · intro hempty
    simp [getWorkflowStatusHandler, getWorkflowHistoryHandler, hmethod, hempty, httpError,
      StatusBadRequest]
  · intro hid
    refine ⟨?_, ?_⟩
    · cases hdesc : cadenceClient.describeWorkflowExecution (queryGet r.query "workflowId")
          (queryGet r.query "runId") <;>
        simp [getWorkflowStatusHandler, hmethod, hid, hdesc, httpError,
          StatusInternalServerError, StatusOK]
    · simp [getWorkflowHistoryHandler, hmethod, hid, StatusOK]

/-- C8 (witness): a `GET` with only a `runId` is answered with 400 without a
backend call on both routes; the `GET` for `wf-1` is not answered with 400. -/
theorem missing_workflowId_is_bad_request_witness :
    (requestWithoutWorkflowId.method = MethodGet ∧
        (getWorkflowStatusHandler sampleBackend (sampleClock 0)
          requestWithoutWorkflowId).response.code = 400 ∧
        (getWorkflowStatusHandler sampleBackend (sampleClock 0)
          requestWithoutWorkflowId).calls = [] ∧
        (getWorkflowHistoryHandler sampleBackend requestWithoutWorkflowId).response.code = 400 ∧
        (getWorkflowHistoryHandler sampleBackend requestWithoutWorkflowId).calls = []) ∧
      (sampleHistoryRequest.method = MethodGet ∧
        queryGet sampleHistoryRequest.query "workflowId" ≠ "" ∧
        (getWorkflowStatusHandler sampleBackend (sampleClock 0)
          sampleHistoryRequest).response.code ≠ 400 ∧
        (getWorkflowHistoryHandler sampleBackend sampleHistoryRequest).response.code ≠ 400) :=
  have hid : queryGet sampleHistoryRequest.query "workflowId" ≠ "" := by
    simp [sampleHistoryRequest, queryGet]
  ⟨⟨rfl,
      (missing_workflowId_is_bad_request sampleBackend (sampleClock 0)
        requestWithoutWorkflowId rfl).2.1
        ((missing_workflowId_is_bad_request sampleBackend (sampleClock 0)
          requestWithoutWorkflowId rfl).1 (by simp [requestWithoutWorkflowId]))⟩,
    ⟨rfl, hid,
      (missing_workflowId_is_bad_request sampleBackend (sampleClock 0)
        sampleHistoryRequest rfl).2.2 hid⟩⟩

/-! ## Properties of the workflow and the activity -/

/-- C9: the workflow body schedules exactly one activity call, for its own
argument; if the call gives result `s` the workflow returns `s` and no error, and
if it gives error `e` the workflow returns `e` unchanged and no result. -/
theorem workflow_mirrors_activity_outcome
    (executeActivity : ActivityOptions → String → Except String String) (name : String) :
    (helloWorldWorkflow executeActivity name).scheduled =
        [{ options := helloWorldActivityOptions, input := name }] ∧
      (∀ s, executeActivity helloWorldActivityOptions name = Except.ok s →
        (helloWorldWorkflow executeActivity name).result = some s ∧
          (helloWorldWorkflow executeActivity name).err = none) ∧
      (∀ e, executeActivity helloWorldActivityOptions name = Except.error e →
        (helloWorldWorkflow executeActivity name).err = some e ∧
          (helloWorldWorkflow executeActivity name).result = none) := by
  refine ⟨?_, ?_, ?_⟩
  · cases hcall : executeActivity helloWorldActivityOptions name <;>
      simp [helloWorldWorkflow, hcall]
  · intro s hs
    simp [helloWorldWorkflow, hs]
  · intro e he
    simp [helloWorldWorkflow, he]

/-- C9 (witness): an activity call that fails with `boom` makes the workflow fail
with `boom`; the activity's greeting for `Ada` is the workflow's result. -/
theorem workflow_mirrors_activity_outcome_witness :
    ((helloWorldWorkflow (fun _ _ => Except.error "boom") "Ada").err = some "boom" ∧
        (helloWorldWorkflow (fun _ _ => Except.error "boom") "Ada").result = none) ∧
      ((helloWorldWorkflow (fun _ m => helloWorldActivity m) "Ada").result =
          some "Hello Ada!" ∧
        (helloWorldWorkflow (fun _ m => helloWorldActivity m) "Ada").err = none) :=
  ⟨(workflow_mirrors_activity_outcome (fun _ _ => Except.error "boom") "Ada").2.2 "boom" rfl,
    (workflow_mirrors_activity_outcome (fun _ m => helloWorldActivity m) "Ada").2.1
      "Hello Ada!" rfl⟩

/-- C10: a `POST` whose body decodes submits to the backend exactly one start
call, whose name is `World` when the request has no name or an empty one and the
name otherwise; the activity applied to any name `m` returns `"Hello " ++ m ++ "!"`
and no error; so the workflow run on the submitted name with this activity returns
`Hello World!` for an absent or empty name and `"Hello " ++ n ++ "!"` otherwise. -/
theorem start_request_name_and_greeting (cadenceClient : Backend) (stamp : String)
    (r : Request) (member : Option String) (hmethod : r.method = MethodPost)
    (hbody : r.body = Except.ok member) :
    (∃ options, (startWorkflowHandler cadenceClient stamp r).calls =
        [BackendCall.startWorkflow options (expectedSubmittedName member)]) ∧
      (∀ m : String, helloWorldActivity m = Except.ok ("Hello " ++ m ++ "!")) ∧
      (helloWorldWorkflow (fun _ m => helloWorldActivity m)
          (expectedSubmittedName member)).result = some (expectedGreeting member) ∧
      (helloWorldWorkflow (fun _ m => helloWorldActivity m)
          (expectedSubmittedName member)).err = none := by
  refine ⟨?_, fun m => rfl, ?_, ?_⟩
  · refine ⟨{ id := "hello-world-" ++ stamp
              taskList := TaskListName
              executionStartToCloseTimeout := minute * 10
              decisionTaskStartToCloseTimeout := minute }, ?_⟩
    rcases member with _ | n
    · cases hstart : cadenceClient.startWorkflow
          { id := "hello-world-" ++ stamp
            taskList := TaskListName
            executionStartToCloseTimeout := minute * 10
            decisionTaskStartToCloseTimeout := minute } "World" <;>
        simp [startWorkflowHandler, hmethod, hbody, expectedSubmittedName, hstart]
    · by_cases hn : n = ""
      · cases hstart : cadenceClient.startWorkflow
            { id := "hello-world-" ++ stamp
              taskList := TaskListName
              executionStartToCloseTimeout := minute * 10
              decisionTaskStartToCloseTimeout := minute } "World" <;>
          simp [startWorkflowHandler, hmethod, hbody, expectedSubmittedName, hn, hstart]
      · cases hstart : cadenceClient.startWorkflow
            { id := "hello-world-" ++ stamp
              taskList := TaskListName
              executionStartToCloseTimeout := minute * 10
              decisionTaskStartToCloseTimeout := minute } n <;>
          simp [startWorkflowHandler, hmethod, hbody, expectedSubmittedName, hn, hstart]
  · rcases member with _ | n
    · simp [helloWorldWorkflow, helloWorldActivity, expectedSubmittedName, expectedGreeting]
    · by_cases hn : n = "" <;>
        simp [helloWorldWorkflow, helloWorldActivity, expectedSubmittedName, expectedGreeting, hn]
  · simp [helloWorldWorkflow, helloWorldActivity]

/-- C10 (witness): the start request for `Ada` submits `Ada`, whose greeting is
`Hello Ada!`; the start request without a name submits `World`. -/
theorem start_request_name_and_greeting_witness :
    (startAdaRequest.method = MethodPost ∧
        (∃ options, (startWorkflowHandler sampleBackend "20240101-120000"
          startAdaRequest).calls = [BackendCall.startWorkflow options "Ada"]) ∧
        (helloWorldWorkflow (fun _ m => helloWorldActivity m) "Ada").result =
          some "Hello Ada!") ∧
      (startAnonymousRequest.method = MethodPost ∧
        (∃ options, (startWorkflowHandler sampleBackend "20240101-120000"
          startAnonymousRequest).calls = [BackendCall.startWorkflow options "World"]) ∧
        (helloWorldWorkflow (fun _ m => helloWorldActivity m) "World").result =
          some "Hello World!") :=
  ⟨⟨rfl,
      (start_request_name_and_greeting sampleBackend "20240101-120000" startAdaRequest
        (some "Ada") rfl rfl).1,
      (start_request_name_and_greeting sampleBackend "20240101-120000" startAdaRequest
        (some "Ada") rfl rfl).2.2.1⟩,
    ⟨rfl,
      (start_request_name_and_greeting sampleBackend "20240101-120000" startAnonymousRequest
        none rfl rfl).1,
      (start_request_name_and_greeting sampleBackend "20240101-120000" startAnonymousRequest
        none rfl rfl).2.2.1⟩⟩

end HelloCadence
